import Mathlib

/-!
Shallow embedding of the SlimIO Config reactive JSON configuration loader
(`src/config.class.js`, most mature revision, together with `src/utils.js`).

The class is a state machine over a private payload tree, a compiled JSON
schema validator, a registry of field observers and a handful of boolean
flags.  We embed it as a pure state-passing model:

* JavaScript JSON trees become `JsonValue`;
* the external collaborators are modelled by their interfaces: the ajv
  engine as `CompiledSchema` (a boolean validator plus a structured error
  list, exactly the shape the class consumes), the filesystem as an
  association list from path to `DiskEntry`, lodash `get`/`set` as dotted
  path resolution over `JsonValue`, and `lodash.clonedeep` as the identity
  (trees are immutable values here, so a deep copy is the value itself);
* a JavaScript `throw` becomes an `Except.error` carrying the error name,
  message and optional `code` property; every operation also returns the
  state it leaves behind, so post-failure state is first class;
* `observer.next`, `observer.complete` and `this.emit` become explicit
  result lists of notifications, completions and event names.
-/

/-- A JSON tree: the payload / schema data model of the loader. -/
inductive JsonValue where
  | null : JsonValue
  | bool : Bool → JsonValue
  | num : Int → JsonValue
  | str : String → JsonValue
  | arr : List JsonValue → JsonValue
  | obj : List (String × JsonValue) → JsonValue

/-- Model of `is.plainObject` of the `@slimio/is` package: true exactly on plain objects. -/
def isPlainObject : JsonValue → Bool
  | .obj _ => true
  | _ => false

/-- An object or an array: a JavaScript value that can hold nested members. -/
def isContainer : JsonValue → Bool
  | .obj _ => true
  | .arr _ => true
  | _ => false

/-- Model of `lodash.clonedeep` on a JSON tree.  Trees are immutable values in the
embedding, so the deep copy severing aliasing is the value itself. -/
def clonedeep (v : JsonValue) : JsonValue := v

/-- Structured validation error of the ajv engine, as consumed by
`formatAjvErrors` (`dataPath` and `message` fields). -/
structure AjvError where
  dataPath : String
  message : String
deriving DecidableEq

/-- The compiled validator produced by `ajv.compile`: calling it yields a
boolean, and after a failed call its `errors` property holds the structured
error list for the value just validated. -/
structure CompiledSchema where
  validate : JsonValue → Bool
  errors : JsonValue → List AjvError

/-- A thrown JavaScript error: constructor name, message, and the optional
`code` own property that Node.js filesystem errors carry (`Reflect.has(err,
"code")` is `code.isSome`); plain `Error`/`TypeError`/`SyntaxError` values
have no `code`. -/
structure JsErr where
  name : String
  message : String
  code : Option String
deriving DecidableEq

/-- Model of `formatAjvErrors` of `src/utils.js`: non-arrays format to the empty
string; an array formats each error as `property <dataPath> <message>`
followed by a newline, all concatenated. -/
def formatAjvErrors : Option (List AjvError) → String
  | none => ""
  | some ajvErrors =>
      String.join (ajvErrors.map (fun oErr =>
        "property " ++ oErr.dataPath ++ " " ++ oErr.message ++ "\n"))

/-! ## Dotted-path access (lodash `get` / `set`)

The class consumes `lodash.get` and `lodash.set` as a commodity dotted-path
accessor over a JSON tree (spec section 1 lists them as an external
collaborator consumed via `get(tree, path)` / `set(tree, path, value)`).
We model lodash's dotted-path fragment: a path splits on `.` into non-empty
segments; objects are addressed by key; arrays only by a canonical decimal
index (lodash `isIndex`).  Setting through a missing or non-container
member creates a fresh array or object depending on whether the next
segment is an index.  lodash would attach a non-index segment to an array
as a custom property, but `lodash.clonedeep` (applied by the payload setter
to every candidate before commit) and `JSON.stringify` (applied by every
disk write) both drop non-index array properties, so the committed and
persisted tree is the array unchanged; the model returns the committed
result directly. -/

/-- lodash `isIndex` on a path segment: a canonical decimal numeral
(`0`, or digits without a leading zero). -/
def isIndexKey (s : String) : Bool :=
  let cs := s.data
  !cs.isEmpty && cs.all (fun c => c.isDigit) && (cs == ['0'] || cs.head? != some '0')

/-- Value of a decimal path segment. -/
def parseIndex (s : String) : Nat :=
  s.data.foldl (fun acc c => acc * 10 + (c.toNat - 48)) 0

/-- Split a dotted path into its non-empty segments, as lodash
`stringToPath` does for plain dotted paths (`"a..b"` gives `a`, `b`;
`""` gives no segment). -/
def splitPath (s : String) : List String :=
  ((s.data.splitOn '.').filter (fun g => !g.isEmpty)).map (fun g => String.mk g)

/-- Association-list lookup for a JavaScript object. -/
def objLookup : List (String × JsonValue) → String → Option JsonValue
  | [], _ => none
  | (k', v') :: rest, k => if k' = k then some v' else objLookup rest k

/-- JavaScript object assignment: replace an existing key in place, append
a missing one. -/
def objInsert : List (String × JsonValue) → String → JsonValue → List (String × JsonValue)
  | [], k, v => [(k, v)]
  | (k', v') :: rest, k, v =>
      if k' = k then (k, v) :: rest else (k', v') :: objInsert rest k v

/-- JavaScript array element assignment, extending with `null` holes when
the index is past the end (the holes `JSON.stringify` would print). -/
def arrInsert : List JsonValue → Nat → JsonValue → List JsonValue
  | _ :: xs, 0, v => v :: xs
  | [], 0, v => [v]
  | [], i + 1, v => .null :: arrInsert [] i v
  | x :: xs, i + 1, v => x :: arrInsert xs i v

/-- The fresh container lodash `set` creates under a missing or
non-container member: an array when the next segment is an index, else an
object. -/
def newChild : List String → JsonValue
  | k :: _ => if isIndexKey k then .arr [] else .obj []
  | [] => .obj []

/-- The child lodash `set` descends into: the existing member when it is a
container, else a fresh container for the remaining path. -/
def stepChild : Option JsonValue → List String → JsonValue
  | some c, rest => if isContainer c then c else newChild rest
  | none, rest => newChild rest

/-- Model of `lodash.get` over split path segments. -/
def getPath : JsonValue → List String → Option JsonValue
  | t, [] => some t
  | .obj fields, k :: ks =>
      match objLookup fields k with
      | some c => getPath c ks
      | none => none
  | .arr xs, k :: ks =>
      if isIndexKey k then
        match xs[parseIndex k]? with
        | some c => getPath c ks
        | none => none
      else none
  | _, _ :: _ => none

/-- Model of `lodash.set` over split path segments (committed result; see the
section comment for non-index array segments). -/
def setPath : JsonValue → List String → JsonValue → JsonValue
  | t, [], _ => t
  | .obj fields, [k], nv => .obj (objInsert fields k nv)
  | .obj fields, k :: k2 :: ks, nv =>
      .obj (objInsert fields k
        (setPath (stepChild (objLookup fields k) (k2 :: ks)) (k2 :: ks) nv))
  | .arr xs, [k], nv =>
      if isIndexKey k then .arr (arrInsert xs (parseIndex k) nv) else .arr xs
  | .arr xs, k :: k2 :: ks, nv =>
      if isIndexKey k then
        .arr (arrInsert xs (parseIndex k)
          (setPath (stepChild xs[parseIndex k]? (k2 :: ks)) (k2 :: ks) nv))
      else .arr xs
  | t, _ :: _, _ => t

/-- The dotted path addresses object members and array elements all the
way down (every array met along the way is addressed by an index segment,
and the path is non-empty).  This is the fragment on which `set` commits
the value and `get` finds it again. -/
def pathOk : JsonValue → List String → Bool
  | _, [] => false
  | .obj _, [_] => true
  | .obj fields, k :: k2 :: ks =>
      pathOk (stepChild (objLookup fields k) (k2 :: ks)) (k2 :: ks)
  | .arr _, [k] => isIndexKey k
  | .arr xs, k :: k2 :: ks =>
      isIndexKey k && pathOk (stepChild xs[parseIndex k]? (k2 :: ks)) (k2 :: ks)
  | _, _ :: _ => false

/-- Model of `lodash.get` on a dotted path; `none` is JavaScript `undefined`. -/
def lodashGet (tree : JsonValue) (fieldPath : String) : Option JsonValue :=
  getPath tree (splitPath fieldPath)

/-- Model of `lodash.set` on a dotted path. -/
def lodashSet (tree : JsonValue) (fieldPath : String) (value : JsonValue) : JsonValue :=
  setPath tree (splitPath fieldPath) value

/-! ## Filesystem model

`readFile` + `JSON.parse` and `writeFile` + `JSON.stringify` are external
collaborators; the disk maps a path to the parsed JSON document of a
well-formed file (together with the indentation it was written with), or
to one of the failure modes the loader distinguishes: a file whose bytes
do not parse (`JSON.parse` throws a `SyntaxError`, which has no `code`
property) and a file whose read fails with a Node.js error code (such as
`EACCES`). -/

/-- One file on disk. -/
inductive DiskEntry where
  | json : JsonValue → Nat → DiskEntry
  | malformed : DiskEntry
  | unreadable : String → DiskEntry

/-- The filesystem: association list from path to entry. -/
abbrev Disk := List (String × DiskEntry)

/-- Lookup a path on disk. -/
def diskGet : Disk → String → Option DiskEntry
  | [], _ => none
  | (p', e') :: rest, p => if p' = p then some e' else diskGet rest p

/-- Write (create or overwrite) a path on disk. -/
def diskSet : Disk → String → DiskEntry → Disk
  | [], p, e => [(p, e)]
  | (p', e') :: rest, p, e =>
      if p' = p then (p, e) :: rest else (p', e') :: diskSet rest p e

/-- Model of `await readFile(path)` followed by `JSON.parse`: a missing path fails
with `ENOENT`, a malformed file fails with a code-less `SyntaxError`, an
unreadable file fails with its I/O code, a well-formed file parses. -/
def readJsonFile (disk : Disk) (path : String) : Except JsErr JsonValue :=
  match diskGet disk path with
  | none => .error { name := "Error", message := "ENOENT: no such file or directory", code := some "ENOENT" }
  | some (.json v _) => .ok v
  | some .malformed => .error { name := "SyntaxError", message := "Unexpected token in JSON", code := none }
  | some (.unreadable c) => .error { name := "Error", message := "I/O failure", code := some c }

/-! ## The Config handle -/

/-- The mutable state of a `Config` instance: its constructor-time fields,
the two private symbol-keyed slots (`payload`, `schema`) and the observer
registry.  Observers are identified by a number; the registry holds
`(fieldPath, observer)` pairs in insertion order, exactly as
`subscriptionObservers` does. -/
structure ConfigState where
  configFile : String
  schemaFile : String
  payload : JsonValue
  schema : Option CompiledSchema
  createOnNoEntry : Bool
  autoReload : Bool
  autoReloadActivated : Bool
  reloadDelay : Nat
  writeOnSet : Bool
  configHasBeenRead : Bool
  subscriptionObservers : List (String × Nat)
  defaultSchema : Option JsonValue

/-- A freshly constructed handle (constructor defaults; the schema file
path is derived deterministically from the config file path, so we carry
it as a field). -/
def mkConfig (configFile schemaFile : String) : ConfigState :=
  { configFile := configFile
    schemaFile := schemaFile
    payload := .obj []
    schema := none
    createOnNoEntry := false
    autoReload := false
    autoReloadActivated := false
    reloadDelay := 500
    writeOnSet := false
    configHasBeenRead := false
    subscriptionObservers := []
    defaultSchema := none }

/-- The static `Config.DEFAULTSchema`, the permissive built-in default. -/
def Config.DEFAULTSchema : JsonValue :=
  .obj [("title", .str "CONFIG"), ("additionalProperties", .bool true)]

/-- The static `Config.STRINGIFY_SPACE`, the JSON indentation used by `writeOnDisk`. -/
def Config.STRINGIFY_SPACE : Nat := 4

/-- An `observer.next` delivery: the observer and the value pushed to it
(`none` is `undefined`). -/
abbrev Notification := Nat × Option JsonValue

/-- The message of the validation error the payload setter throws. -/
def validationErrorMessage (errs : List AjvError) : String :=
  "Config.payload - Failed to validate new configuration, err => " ++ formatAjvErrors (some errs)

/-- The payload setter `set payload(newPayload)`: precondition checks,
deep clone, validation against the compiled schema, then commit and
notification of every registered observer (in registry order) with the
value `this.get(fieldPath)` resolves under the new payload. -/
def Config.setPayload (st : ConfigState) (newPayload : JsonValue) :
    ConfigState × Except JsErr (List Notification) :=
  if !st.configHasBeenRead then
    (st, .error { name := "Error"
                  message := "Config.payload - cannot set a new payload when the config has not been read yet!"
                  code := none })
  else if !isPlainObject newPayload then
    (st, .error { name := "TypeError"
                  message := "Config.payload->newPayload should be typeof <Object>"
                  code := none })
  else
    match st.schema with
    | none =>
        (st, .error { name := "TypeError", message := "this[schema] is not a function", code := none })
    | some sch =>
        let tempPayload := clonedeep newPayload
        if sch.validate tempPayload = false then
          (st, .error { name := "Error"
                        message := validationErrorMessage (sch.errors tempPayload)
                        code := none })
        else
          let st' := { st with payload := tempPayload }
          (st', .ok (st'.subscriptionObservers.map
            (fun e => (e.2, lodashGet (clonedeep st'.payload) e.1))))

/-- Model of `Config.get(fieldPath)`: precondition, then lodash `get` over a fresh
payload clone; a missing leaf is `undefined` (`none`), never a throw. -/
def Config.get (st : ConfigState) (fieldPath : String) :
    ConfigState × Except JsErr (Option JsonValue) :=
  if !st.configHasBeenRead then
    (st, .error { name := "Error"
                  message := "Config.get - Unable to get a key, the configuration has not been initialized yet!"
                  code := none })
  else
    (st, .ok (lodashGet (clonedeep st.payload) fieldPath))

/-- Result of a successful `Config.set`. -/
structure SetOk where
  notifications : List Notification
  lazyWriteScheduled : Bool

/-- Model of `Config.set(fieldPath, fieldValue)`: precondition, lodash `set` on a
payload clone, then commit through the payload setter; with `writeOnSet`
a lazy disk write is scheduled after a successful commit. -/
def Config.set (st : ConfigState) (fieldPath : String) (fieldValue : JsonValue) :
    ConfigState × Except JsErr SetOk :=
  if !st.configHasBeenRead then
    (st, .error { name := "Error"
                  message := "Config.set - Unable to set a key, the configuration has not been initialized yet!"
                  code := none })
  else
    match Config.setPayload st (lodashSet (clonedeep st.payload) fieldPath fieldValue) with
    | (st', .error e) => (st', .error e)
    | (st', .ok notifs) =>
        (st', .ok { notifications := notifs, lazyWriteScheduled := st.writeOnSet })

/-- Model of `Config.setupAutoReload()`: precondition, no-op returning `false` when
`autoReload` is off or the watcher is already armed, else arms the watch
subscription and returns `true`. -/
def Config.setupAutoReload (st : ConfigState) : ConfigState × Except JsErr Bool :=
  if !st.configHasBeenRead then
    (st, .error { name := "Error"
                  message := "Config.setupAutoReaload - cannot setup autoReload when the config has not been read yet!"
                  code := none })
  else if !st.autoReload || st.autoReloadActivated then
    (st, .ok false)
  else
    ({ st with autoReloadActivated := true }, .ok true)

/-- Model of `Config.writeOnDisk()`: precondition, then
`writeFile(configFile, JSON.stringify(payload, null, STRINGIFY_SPACE))`
and an emitted notification; the returned list holds the event names
emitted (in order). -/
def Config.writeOnDisk (disk : Disk) (st : ConfigState) :
    (Disk × ConfigState) × Except JsErr (List String) :=
  if !st.configHasBeenRead then
    ((disk, st), .error { name := "Error"
                          message := "Config.writeOnDisk - Cannot write unreaded configuration on the disk"
                          code := none })
  else
    ((diskSet disk st.configFile (.json st.payload Config.STRINGIFY_SPACE), st),
     .ok ["configWrited"])

/-- Whether `err.code` is present and differs from `"ENOENT"`: the exact guard
`Reflect.has(err, "code") && err.code !== "ENOENT"` of `read`. -/
def errCodePresentNotEnoent (e : JsErr) : Bool :=
  match e.code with
  | some c => c != "ENOENT"
  | none => false

/-- The `defaultPayload` argument guard of `read`: absent, or a plain object. -/
def dpOk : Option JsonValue → Bool
  | none => true
  | some d => isPlainObject d

/-- Result of a successful `Config.read`. -/
structure ReadOk where
  notifications : List Notification
  lazyWriteScheduled : Bool
  watcherArmed : Bool

/-- Steps 3 to 6 of `read`: compile the schema, set `configHasBeenRead`
to true, commit the candidate through the validating payload setter
(rolling the flag back to false and rethrowing on failure), then run
`setupAutoReload`; `lazyWriteScheduled` reports whether step 1 asked for
the deferred first write. -/
def Config.readCommit (st : ConfigState) (jsonConfig : JsonValue) (writeFlag : Bool)
    (jsonSchema : JsonValue) (compile : JsonValue → CompiledSchema) :
    ConfigState × Except JsErr ReadOk :=
  match Config.setPayload
      { st with schema := some (compile jsonSchema), configHasBeenRead := true } jsonConfig with
  | (st2, .error e) => ({ st2 with configHasBeenRead := false }, .error e)
  | (st2, .ok notifs) =>
      match Config.setupAutoReload st2 with
      | (st3, .error e) => (st3, .error e)
      | (st3, .ok armed) =>
          (st3, .ok { notifications := notifs
                      lazyWriteScheduled := writeFlag
                      watcherArmed := armed })

/-- Step 2 of `read` (schema acquisition) followed by the commit phase: a
schema-file failure whose `code` is present and not `ENOENT` propagates;
any other failure falls back to the constructor's `defaultSchema` when
supplied, else to `Config.DEFAULTSchema`. -/
def Config.readRest (disk : Disk) (st : ConfigState) (jsonConfig : JsonValue)
    (writeFlag : Bool) (compile : JsonValue → CompiledSchema) :
    ConfigState × Except JsErr ReadOk :=
  match readJsonFile disk st.schemaFile with
  | .ok jsonSchema => Config.readCommit st jsonConfig writeFlag jsonSchema compile
  | .error err =>
      if errCodePresentNotEnoent err then (st, .error err)
      else
        Config.readCommit st jsonConfig writeFlag
          (st.defaultSchema.getD Config.DEFAULTSchema) compile

/-- Model of `Config.read(defaultPayload)`: the full read protocol.  Step 1 reads
and parses the config file; on failure the guard
`!this.createOnNoEntry || Reflect.has(err, "code") && err.code !== "ENOENT"`
rethrows, else the candidate becomes `defaultPayload` when given (a plain
object is always truthy), otherwise the current internal payload, and the
deferred first write is requested.  `ajv.compile` is the external engine,
passed as `compile`. -/
def Config.read (disk : Disk) (st : ConfigState) (defaultPayload : Option JsonValue)
    (compile : JsonValue → CompiledSchema) : ConfigState × Except JsErr ReadOk :=
  if !dpOk defaultPayload then
    (st, .error { name := "TypeError"
                  message := "defaultPayload argument should be a plain JavaScript Object!"
                  code := none })
  else
    match readJsonFile disk st.configFile with
    | .ok jsonConfig => Config.readRest disk st jsonConfig false compile
    | .error err =>
        if !st.createOnNoEntry || errCodePresentNotEnoent err then (st, .error err)
        else Config.readRest disk st (defaultPayload.getD st.payload) true compile

/-- ECMAScript `ToIntegerOrInfinity` of a path string, as
`Array.prototype.splice` applies it to its start argument: a decimal
numeral evaluates to its value, any other string (`NaN`) to `0`.  (The
field-path strings of the registry are either decimal numerals or
non-numeric dotted names.) -/
def jsToIndex (s : String) : Nat :=
  let cs := s.data
  if !cs.isEmpty && cs.all (fun c => c.isDigit) then
    cs.foldl (fun acc c => acc * 10 + (c.toNat - 48)) 0
  else 0

/-- The observer loop of `close`:
`for (const [index, subscriptionObservers] of this.subscriptionObservers)`
destructures each `(fieldPath, observer)` pair as `[index, observer]`, so
`index` is the field-path string; the body completes the observer and then
runs `this.subscriptionObservers.splice(index, 1)` on the array being
iterated.  We model the ECMAScript array iterator: a cursor `i` starts at
0, each step checks `i` against the current length, yields the `i`-th
element and advances.  The fuel argument only bounds the recursion: the
cursor grows by one per step while the length never grows, so
`arr.length` steps always suffice and the fuel never runs out on the
initial call `closeLoopAux arr.length arr 0`. -/
def closeLoopAux : Nat → List (String × Nat) → Nat → List Nat × List (String × Nat)
  | 0, arr, _ => ([], arr)
  | fuel + 1, arr, i =>
      match arr[i]? with
      | none => ([], arr)
      | some e =>
          let arr' := arr.eraseIdx (jsToIndex e.1)
          let rec' := closeLoopAux fuel arr' (i + 1)
          (e.2 :: rec'.1, rec'.2)

/-- The observer loop of `close` run from the start of the registry;
returns the observers completed (in order) and the registry left behind. -/
def closeObservers (arr : List (String × Nat)) : List Nat × List (String × Nat) :=
  closeLoopAux arr.length arr 0

/-- Result of a successful `Config.close`. -/
structure CloseOk where
  completed : List Nat
  events : List String

/-- Model of `Config.close()`: precondition, then in order: write the payload to
disk (the `writeOnDisk` flush, emitting its notification), release the
watch subscription when armed, run the observer-completion loop, and
finally clear `configHasBeenRead`. -/
def Config.close (disk : Disk) (st : ConfigState) :
    (Disk × ConfigState) × Except JsErr CloseOk :=
  if !st.configHasBeenRead then
    ((disk, st), .error { name := "Error"
                          message := "Config.close - Cannot close unreaded configuration"
                          code := none })
  else
    let disk' := diskSet disk st.configFile (.json st.payload Config.STRINGIFY_SPACE)
    let st1 := if st.autoReloadActivated then { st with autoReloadActivated := false } else st
    let looped := closeObservers st1.subscriptionObservers
    ((disk', { st1 with subscriptionObservers := looped.2, configHasBeenRead := false }),
     .ok { completed := looped.1, events := ["configWrited"] })

/-- The lazily-subscribed observable `observableOf(fieldPath, depth)`
returns: it closes over the field value resolved at call time. -/
structure ObservableHandle where
  fieldPath : String
  captured : Option JsonValue

/-- Model of `Config.observableOf(fieldPath, depth = Infinity)`: resolves the field
value immediately through `this.get` (which enforces the read
precondition), rejects a finite `depth` (`none` models the `Infinity`
default), and returns the observable closing over the captured value. -/
def Config.observableOf (st : ConfigState) (fieldPath : String) (depth : Option Nat) :
    ConfigState × Except JsErr ObservableHandle :=
  match Config.get st fieldPath with
  | (st', .error e) => (st', .error e)
  | (st', .ok fieldValue) =>
      match depth with
      | some _ =>
          (st', .error { name := "Error"
                         message := "ObservableOf depth is not implemented yet!"
                         code := none })
      | none => (st', .ok { fieldPath := fieldPath, captured := fieldValue })

/-- Subscribing to the returned observable runs its executor: it first
pushes the captured value to the new observer (`observer.next(fieldValue)`)
and only then appends the `(fieldPath, observer)` pair to the registry.
Returns the updated state and the deliveries made during subscription. -/
def Config.subscribe (st : ConfigState) (obs : ObservableHandle) (observerId : Nat) :
    ConfigState × List Notification :=
  ({ st with subscriptionObservers := st.subscriptionObservers ++ [(obs.fieldPath, observerId)] },
   [(observerId, obs.captured)])

/-- The round-trip scenario of the spec's testable properties:
`set(path, v)`, `writeOnDisk()`, construct a new handle on the same config
file, `read()`, then `get(path)`. -/
def roundTripRun (disk : Disk) (st : ConfigState) (fieldPath : String) (v : JsonValue)
    (compile : JsonValue → CompiledSchema) : Except JsErr (Option JsonValue) :=
  match Config.set st fieldPath v with
  | (_, .error e) => .error e
  | (st1, .ok _) =>
      match Config.writeOnDisk disk st1 with
      | (_, .error e) => .error e
      | ((disk1, _), .ok _) =>
          match Config.read disk1 (mkConfig st.configFile st.schemaFile) none compile with
          | (_, .error e) => .error e
          | (st3, .ok _) => (Config.get st3 fieldPath).2

/-! ## Path lemmas -/

theorem objLookup_objInsert_self (l : List (String × JsonValue)) (k : String) (v : JsonValue) :
    objLookup (objInsert l k v) k = some v := by
  induction l with
  | nil => simp [objInsert, objLookup]
  | cons hd tl ih =>
      by_cases h : hd.1 = k
      · simp [objInsert, objLookup, h]
      · simp [objInsert, objLookup, h, ih]

theorem arrInsert_getElem_self (i : Nat) (xs : List JsonValue) (v : JsonValue) :
    (arrInsert xs i v)[i]? = some v := by
  induction i generalizing xs with
  | zero => cases xs <;> simp [arrInsert]
  | succ n ih => cases xs <;> simp [arrInsert, ih]

theorem getPath_setPath (ks : List String) :
    ∀ (t v : JsonValue), pathOk t ks = true → getPath (setPath t ks v) ks = some v := by
  induction ks with
  | nil => intro t v h; simp [pathOk] at h
  | cons k rest ih =>
      intro t v h
      cases rest with
      | nil =>
          cases t with
          | obj fields => simp [setPath, getPath, objLookup_objInsert_self]
          | arr xs =>
              have hk : isIndexKey k = true := by simpa [pathOk] using h
              simp [setPath, getPath, hk, arrInsert_getElem_self]
          | null => simp [pathOk] at h
          | bool b => simp [pathOk] at h
          | num n => simp [pathOk] at h
          | str s => simp [pathOk] at h
      | cons k2 ks' =>
          cases t with
          | obj fields =>
              have h' : pathOk (stepChild (objLookup fields k) (k2 :: ks')) (k2 :: ks') = true := by
                simpa [pathOk] using h
              simp [setPath, getPath, objLookup_objInsert_self, ih _ v h']
          | arr xs =>
              have h' : isIndexKey k = true ∧
                  pathOk (stepChild xs[parseIndex k]? (k2 :: ks')) (k2 :: ks') = true := by
                simpa [pathOk] using h
              simp [setPath, getPath, h'.1, arrInsert_getElem_self, ih _ v h'.2]
          | null => simp [pathOk] at h
          | bool b => simp [pathOk] at h
          | num n => simp [pathOk] at h
          | str s => simp [pathOk] at h

theorem isPlainObject_setPath (t v : JsonValue) (ks : List String)
    (h : isPlainObject t = true) : isPlainObject (setPath t ks v) = true := by
  cases t with
  | obj fields =>
      cases ks with
      | nil => simpa [setPath] using h
      | cons k rest => cases rest <;> simp [setPath, isPlainObject]
  | null => simp [isPlainObject] at h
  | bool b => simp [isPlainObject] at h
  | num n => simp [isPlainObject] at h
  | str s => simp [isPlainObject] at h
  | arr xs => simp [isPlainObject] at h

/-! ## Disk lemmas -/

theorem diskGet_diskSet_self (d : Disk) (p : String) (e : DiskEntry) :
    diskGet (diskSet d p e) p = some e := by
  induction d with
  | nil => simp [diskSet, diskGet]
  | cons hd tl ih =>
      by_cases h : hd.1 = p
      · simp [diskSet, diskGet, h]
      · simp [diskSet, diskGet, h, ih]

theorem diskGet_diskSet_ne (d : Disk) (p q : String) (e : DiskEntry) (h : q ≠ p) :
    diskGet (diskSet d p e) q = diskGet d q := by
  induction d with
  | nil => simp [diskSet, diskGet, Ne.symm h]
  | cons hd tl ih =>
      by_cases hp : hd.1 = p
      · simp [diskSet, diskGet, hp, Ne.symm h]
      · by_cases hq : hd.1 = q
        · simp [diskSet, diskGet, hp, hq, h]
        · simp [diskSet, diskGet, hp, hq, ih]

/-! ## Inversion lemmas for the operations -/

theorem setPayload_ok (st : ConfigState) (np : JsonValue) (st' : ConfigState)
    (notifs : List Notification) (h : Config.setPayload st np = (st', .ok notifs)) :
    st' = { st with payload := clonedeep np } ∧
      ∃ sch, st.schema = some sch ∧ sch.validate (clonedeep np) = true ∧
        notifs = st'.subscriptionObservers.map
          (fun e => (e.2, lodashGet (clonedeep st'.payload) e.1)) := by
  obtain ⟨cf, sf, pl, sc, ce, ar, ara, rd, ws, chr, so, ds⟩ := st
  cases chr with
  | false => simp [Config.setPayload] at h
  | true =>
      cases h2 : isPlainObject np with
      | false => simp [Config.setPayload, h2] at h
      | true =>
          cases sc with
          | none => simp [Config.setPayload, h2] at h
          | some sch =>
              cases h3 : sch.validate (clonedeep np) with
              | false => simp [Config.setPayload, h2, h3] at h
              | true =>
                  simp [Config.setPayload, h2, h3] at h
                  obtain ⟨hst, hnot⟩ := h
                  exact ⟨hst.symm, sch, rfl, h3, by rw [← hst, ← hnot]⟩

theorem setupAutoReload_ok (st st' : ConfigState) (r : Bool)
    (h : Config.setupAutoReload st = (st', .ok r)) :
    st'.configHasBeenRead = st.configHasBeenRead ∧ st'.schema = st.schema ∧
      st'.payload = st.payload := by
  obtain ⟨cf, sf, pl, sc, ce, ar, ara, rd, ws, chr, so, ds⟩ := st
  cases chr with
  | false => simp [Config.setupAutoReload] at h
  | true =>
      by_cases h2 : !ar || ara
      · simp [Config.setupAutoReload, h2] at h
        simp [← h.1]
      · simp [Config.setupAutoReload, h2] at h
        simp [← h.1]

theorem setupAutoReload_of_read (st : ConfigState) (h : st.configHasBeenRead = true) :
    ∃ st' r, Config.setupAutoReload st = (st', .ok r) := by
  unfold Config.setupAutoReload
  by_cases h2 : !st.autoReload || st.autoReloadActivated <;> simp [h, h2]

/-! ## C1 -/

/-- C1: on a read handle, assigning a candidate plain-object payload whose
deep clone fails validation against the compiled schema throws an error
whose message enumerates every individual schema violation of the
validator's error list, each as `property <dataPath> <message>` on its own
newline-terminated line, and the operation returns the state unchanged
(same internal payload: no partial commit). -/
theorem payload_setter_rejects_and_enumerates
    (st : ConfigState) (sch : CompiledSchema) (np : JsonValue)
    (hread : st.configHasBeenRead = true)
    (hobj : isPlainObject np = true)
    (hsch : st.schema = some sch)
    (hfail : sch.validate (clonedeep np) = false) :
    Config.setPayload st np =
      (st, .error { name := "Error"
                    message := "Config.payload - Failed to validate new configuration, err => " ++
                      String.join ((sch.errors (clonedeep np)).map
                        (fun e => "property " ++ e.dataPath ++ " " ++ e.message ++ "\n"))
                    code := none }) := by
  simp [Config.setPayload, hread, hobj, hsch, hfail, validationErrorMessage, formatAjvErrors]

def c1sch : CompiledSchema :=
  { validate := fun _ => false
    errors := fun _ => [{ dataPath := ".foo", message := "should be string" },
                        { dataPath := ".bar", message := "should be number" }] }

def c1st : ConfigState :=
  { mkConfig "cfg.json" "cfg.schema.json" with
      configHasBeenRead := true
      schema := some c1sch
      payload := .obj [("foo", .str "world!")] }

def c1np : JsonValue := .obj [("foo", .num 10)]

/-- Witness for C1 at a concrete handle with two schema violations. -/
theorem payload_setter_rejects_witness :
    Config.setPayload c1st c1np =
      (c1st, .error { name := "Error"
                      message := "Config.payload - Failed to validate new configuration, err => property .foo should be string\nproperty .bar should be number\n"
                      code := none }) := by
  have h := payload_setter_rejects_and_enumerates c1st c1sch c1np rfl rfl rfl rfl
  exact h.trans (by rfl)

/-! ## C2 -/

/-- C2: on a read handle, a successful payload assignment (the clone
validates) replaces the internal payload with the clone, leaves the
observer registry as it was, and pushes to every registry entry, in
insertion order, the value resolved at that entry's field path under the
new payload: one notification per entry per commit, regardless of whether
the observed field changed and however many observers share a path. -/
theorem payload_setter_commit_notifies
    (st : ConfigState) (sch : CompiledSchema) (np : JsonValue)
    (hread : st.configHasBeenRead = true)
    (hobj : isPlainObject np = true)
    (hsch : st.schema = some sch)
    (hvalid : sch.validate (clonedeep np) = true) :
    (Config.setPayload st np).1.payload = clonedeep np ∧
    (Config.setPayload st np).1.subscriptionObservers = st.subscriptionObservers ∧
    ∃ notifs, (Config.setPayload st np).2 = .ok notifs ∧
      notifs.length = st.subscriptionObservers.length ∧
      notifs.map Prod.fst = st.subscriptionObservers.map Prod.snd ∧
      ∀ i, i < st.subscriptionObservers.length →
        notifs[i]? = (st.subscriptionObservers[i]?).map
          (fun e => (e.2, lodashGet (clonedeep np) e.1)) := by
  have hv' : sch.validate (clonedeep np) ≠ false := by simp [hvalid]
  have hv2 : sch.validate np ≠ false := by simpa [clonedeep] using hv'
  refine ⟨?_, ?_, st.subscriptionObservers.map
    (fun e => (e.2, lodashGet (clonedeep np) e.1)), ?_, ?_, ?_, ?_⟩
  · simp [Config.setPayload, hread, hobj, hsch, hv']
  · simp [Config.setPayload, hread, hobj, hsch, hv']
  · simp [Config.setPayload, hread, hobj, hsch, hv', hv2, clonedeep]
  · simp
  · simp
  · intro i hi
    simp [List.getElem?_map]

def c2sch : CompiledSchema := { validate := fun _ => true, errors := fun _ => [] }

def c2st : ConfigState :=
  { mkConfig "cfg.json" "cfg.schema.json" with
      configHasBeenRead := true
      schema := some c2sch
      payload := .obj [("foo", .str "same"), ("bar", .str "old")]
      subscriptionObservers := [("foo", 0), ("foo", 1), ("bar", 2)] }

def c2np : JsonValue := .obj [("foo", .str "same"), ("bar", .str "newv")]

/-- Witness for C2: two observers share the unchanged field `foo` and each
still receives exactly one notification with the (unchanged) value under
the new payload, while the `bar` observer sees the new value. -/
theorem payload_setter_commit_witness :
    (Config.setPayload c2st c2np).1.payload = clonedeep c2np ∧
    (Config.setPayload c2st c2np).2 =
      .ok [(0, some (JsonValue.str "same")), (1, some (JsonValue.str "same")),
           (2, some (JsonValue.str "newv"))] := by
  have h := payload_setter_commit_notifies c2st c2sch c2np rfl rfl rfl rfl
  exact ⟨h.1, by rfl⟩

/-! ## C8 -/

/-- C8: on a handle that has never been (successfully) read, each of
`get`, `set`, the payload setter, `writeOnDisk`, `close` and
`setupAutoReload` fails synchronously with its documented precondition
error and leaves the handle state (and the disk) unchanged. -/
theorem unread_operations_fail (st : ConfigState) (disk : Disk)
    (h : st.configHasBeenRead = false) :
    (∀ p, Config.get st p =
      (st, .error { name := "Error"
                    message := "Config.get - Unable to get a key, the configuration has not been initialized yet!"
                    code := none })) ∧
    (∀ p v, Config.set st p v =
      (st, .error { name := "Error"
                    message := "Config.set - Unable to set a key, the configuration has not been initialized yet!"
                    code := none })) ∧
    (∀ np, Config.setPayload st np =
      (st, .error { name := "Error"
                    message := "Config.payload - cannot set a new payload when the config has not been read yet!"
                    code := none })) ∧
    Config.writeOnDisk disk st =
      ((disk, st), .error { name := "Error"
                            message := "Config.writeOnDisk - Cannot write unreaded configuration on the disk"
                            code := none }) ∧
    Config.close disk st =
      ((disk, st), .error { name := "Error"
                            message := "Config.close - Cannot close unreaded configuration"
                            code := none }) ∧
    Config.setupAutoReload st =
      (st, .error { name := "Error"
                    message := "Config.setupAutoReaload - cannot setup autoReload when the config has not been read yet!"
                    code := none }) := by
  refine ⟨fun p => ?_, fun p v => ?_, fun np => ?_, ?_, ?_, ?_⟩ <;>
    simp [Config.get, Config.set, Config.setPayload, Config.writeOnDisk, Config.close,
      Config.setupAutoReload, h]

def c8st : ConfigState := mkConfig "cfg.json" "cfg.schema.json"

/-- Witness for C8 on a freshly constructed handle. -/
theorem unread_operations_fail_witness :
    Config.get c8st "foo" =
      (c8st, .error { name := "Error"
                      message := "Config.get - Unable to get a key, the configuration has not been initialized yet!"
                      code := none }) ∧
    Config.set c8st "foo" (.str "x") =
      (c8st, .error { name := "Error"
                      message := "Config.set - Unable to set a key, the configuration has not been initialized yet!"
                      code := none }) ∧
    Config.setPayload c8st (.obj []) =
      (c8st, .error { name := "Error"
                      message := "Config.payload - cannot set a new payload when the config has not been read yet!"
                      code := none }) ∧
    Config.writeOnDisk [] c8st =
      (([], c8st), .error { name := "Error"
                            message := "Config.writeOnDisk - Cannot write unreaded configuration on the disk"
                            code := none }) ∧
    Config.close [] c8st =
      (([], c8st), .error { name := "Error"
                            message := "Config.close - Cannot close unreaded configuration"
                            code := none }) ∧
    Config.setupAutoReload c8st =
      (c8st, .error { name := "Error"
                      message := "Config.setupAutoReaload - cannot setup autoReload when the config has not been read yet!"
                      code := none }) := by
  have h := unread_operations_fail c8st [] rfl
  exact ⟨h.1 "foo", h.2.1 "foo" (.str "x"), h.2.2.1 (.obj []), h.2.2.2.1, h.2.2.2.2.1,
    h.2.2.2.2.2⟩

/-! ## C10 -/

/-- C10: `observableOf(fieldPath)` resolves the field once, at call time,
on the payload the handle holds at that moment; subscribing to the
returned observable — on any later handle state, in particular after
further commits — delivers that captured value as the first (and only
subscription-time) item and only then appends the observer to the
registry, so a commit between the `observableOf` call and the
subscription is not reflected in the first delivered item. -/
theorem observable_captures_at_call
    (st : ConfigState) (p : String) (hread : st.configHasBeenRead = true) :
    Config.observableOf st p none =
      (st, .ok { fieldPath := p, captured := lodashGet (clonedeep st.payload) p }) ∧
    ∀ (st2 : ConfigState) (oid : Nat),
      Config.subscribe st2 { fieldPath := p, captured := lodashGet (clonedeep st.payload) p } oid =
        ({ st2 with subscriptionObservers := st2.subscriptionObservers ++ [(p, oid)] },
         [(oid, lodashGet (clonedeep st.payload) p)]) := by
  constructor
  · simp [Config.observableOf, Config.get, hread]
  · intro st2 oid
    rfl

def c10sch : CompiledSchema := { validate := fun _ => true, errors := fun _ => [] }

def c10st : ConfigState :=
  { mkConfig "cfg.json" "cfg.schema.json" with
      configHasBeenRead := true
      schema := some c10sch
      payload := .obj [("foo", .str "bar")] }

def c10np : JsonValue := .obj [("foo", .str "new")]

/-- Witness for C10: the observable is created while `foo` is `"bar"`, a
commit then changes `foo` to `"new"`, and the subscription made after the
commit still receives `"bar"` — not the current value — as its first item. -/
theorem observable_captures_witness :
    (Config.observableOf c10st "foo" none).2 =
      .ok { fieldPath := "foo", captured := some (JsonValue.str "bar") } ∧
    (Config.setPayload c10st c10np).1.payload = c10np ∧
    (Config.subscribe (Config.setPayload c10st c10np).1
        { fieldPath := "foo", captured := some (JsonValue.str "bar") } 0).2 =
      [(0, some (JsonValue.str "bar"))] ∧
    lodashGet (Config.setPayload c10st c10np).1.payload "foo" = some (JsonValue.str "new") ∧
    some (JsonValue.str "bar") ≠ some (JsonValue.str "new") := by
  have h := observable_captures_at_call c10st "foo" rfl
  refine ⟨?_, by rfl, ?_, by rfl, by simp⟩
  · rw [h.1]; rfl
  · exact congrArg Prod.snd (h.2 (Config.setPayload c10st c10np).1 0)

/-! ## C3 -/

theorem setupAutoReload_error (st st' : ConfigState) (e : JsErr)
    (h : Config.setupAutoReload st = (st', .error e)) : st.configHasBeenRead = false := by
  cases h1 : st.configHasBeenRead with
  | false => rfl
  | true =>
      by_cases h2 : !st.autoReload || st.autoReloadActivated <;>
        simp [Config.setupAutoReload, h1, h2] at h

theorem readCommit_ok (st : ConfigState) (jc : JsonValue) (wf : Bool) (js : JsonValue)
    (compile : JsonValue → CompiledSchema) (st' : ConfigState) (r : ReadOk)
    (h : Config.readCommit st jc wf js compile = (st', .ok r)) :
    st'.configHasBeenRead = true ∧
      ∃ sch, st'.schema = some sch ∧ sch.validate st'.payload = true := by
  unfold Config.readCommit at h
  cases hsp : Config.setPayload
      { st with schema := some (compile js), configHasBeenRead := true } jc with
  | mk st2 res =>
      cases res with
      | error e => rw [hsp] at h; simp at h
      | ok notifs =>
          rw [hsp] at h
          dsimp only at h
          obtain ⟨hst2, sch, hsch, hval, hnot⟩ := setPayload_ok _ jc st2 notifs hsp
          dsimp only at hst2 hsch
          cases hsa : Config.setupAutoReload st2 with
          | mk st3 res2 =>
              cases res2 with
              | error e => rw [hsa] at h; simp at h
              | ok armed =>
                  rw [hsa] at h
                  simp at h
                  obtain ⟨h3r, h3s, h3p⟩ := setupAutoReload_ok st2 st3 armed hsa
                  have hsch' : compile js = sch := by simpa using hsch
                  refine ⟨?_, sch, ?_, ?_⟩
                  · rw [← h.1, h3r, hst2]
                  · rw [← h.1, h3s, hst2, hsch']
                  · rw [← h.1, h3p, hst2]
                    simpa using hval

theorem readRest_ok (disk : Disk) (st : ConfigState) (jc : JsonValue) (wf : Bool)
    (compile : JsonValue → CompiledSchema) (st' : ConfigState) (r : ReadOk)
    (h : Config.readRest disk st jc wf compile = (st', .ok r)) :
    st'.configHasBeenRead = true ∧
      ∃ sch, st'.schema = some sch ∧ sch.validate st'.payload = true := by
  unfold Config.readRest at h
  cases hrs : readJsonFile disk st.schemaFile with
  | ok s =>
      rw [hrs] at h
      exact readCommit_ok st jc wf s compile st' r h
  | error err =>
      rw [hrs] at h
      by_cases hg : errCodePresentNotEnoent err
      · simp [hg] at h
      · simp only [hg, if_false, Bool.false_eq_true] at h
        exact readCommit_ok st jc wf _ compile st' r h

/-- C3: `read` sets `configHasBeenRead` before committing the candidate
through the validating payload setter; when the commit fails validation
the flag is rolled back to `false`, the compiled schema having been
installed, and the very validation error is propagated to the caller of
`read`; and whenever `read` returns successfully the handle reports
`configHasBeenRead = true` with a payload that satisfies the compiled
schema — it never reports "read" while holding an invalid payload. -/
theorem read_rollback_on_invalid :
    (∀ (disk : Disk) (st : ConfigState) (dp : Option JsonValue)
        (compile : JsonValue → CompiledSchema) (c s : JsonValue),
      dpOk dp = true →
      readJsonFile disk st.configFile = .ok c →
      readJsonFile disk st.schemaFile = .ok s →
      isPlainObject c = true →
      (compile s).validate (clonedeep c) = false →
      Config.read disk st dp compile =
        ({ st with schema := some (compile s), configHasBeenRead := false },
         .error { name := "Error"
                  message := validationErrorMessage ((compile s).errors (clonedeep c))
                  code := none })) ∧
    (∀ (disk : Disk) (st : ConfigState) (dp : Option JsonValue)
        (compile : JsonValue → CompiledSchema) (st' : ConfigState) (r : ReadOk),
      Config.read disk st dp compile = (st', .ok r) →
      st'.configHasBeenRead = true ∧
        ∃ sch, st'.schema = some sch ∧ sch.validate st'.payload = true) := by
  constructor
  · intro disk st dp compile c s hdp hc hs hobj hfail
    simp [Config.read, Config.readRest, Config.readCommit, Config.setPayload,
      hdp, hc, hs, hobj, hfail]
  · intro disk st dp compile st' r h
    unfold Config.read at h
    by_cases hdp : dpOk dp
    · cases hc : readJsonFile disk st.configFile with
      | ok c =>
          rw [hc] at h
          simp only [hdp, Bool.not_true, if_false, Bool.false_eq_true] at h
          exact readRest_ok disk st c false compile st' r h
      | error err =>
          rw [hc] at h
          simp only [hdp, Bool.not_true, if_false, Bool.false_eq_true] at h
          by_cases hg : !st.createOnNoEntry || errCodePresentNotEnoent err
          · simp [hg] at h
          · simp only [hg, if_false, Bool.false_eq_true] at h
            exact readRest_ok disk st _ true compile st' r h
    · simp [Config.read, hdp] at h

def c3compile : JsonValue → CompiledSchema :=
  fun _ => { validate := fun _ => false
             errors := fun _ => [{ dataPath := ".foo", message := "should be string" }] }

def c3compileOk : JsonValue → CompiledSchema :=
  fun _ => { validate := fun _ => true, errors := fun _ => [] }

def c3disk : Disk :=
  [("cfg.json", .json (.obj [("foo", .num 1)]) 4), ("cfg.schema.json", .json (.obj []) 4)]

def c3st : ConfigState := mkConfig "cfg.json" "cfg.schema.json"

def c3stOk : ConfigState :=
  { c3st with schema := some (c3compileOk (.obj []))
              configHasBeenRead := true
              payload := .obj [("foo", .num 1)] }

/-- Witness for C3: a read whose candidate fails validation leaves the
handle un-read and surfaces the validation error, and a read that
succeeds leaves the handle read. -/
theorem read_rollback_witness :
    Config.read c3disk c3st none c3compile =
      ({ c3st with schema := some (c3compile (JsonValue.obj [])), configHasBeenRead := false },
       .error { name := "Error"
                message := "Config.payload - Failed to validate new configuration, err => property .foo should be string\n"
                code := none }) ∧
    c3stOk.configHasBeenRead = true := by
  constructor
  · have h1 := read_rollback_on_invalid.1 c3disk c3st none c3compile
      (.obj [("foo", .num 1)]) (.obj []) rfl rfl rfl rfl rfl
    exact h1.trans (by rfl)
  · exact (read_rollback_on_invalid.2 c3disk c3st none c3compileOk c3stOk
      { notifications := [], lazyWriteScheduled := false, watcherArmed := false } rfl).1

/-! ## C4 -/

def c4compile : JsonValue → CompiledSchema :=
  fun _ => { validate := fun _ => true, errors := fun _ => [] }

def c4disk : Disk := [("cfg.json", .malformed), ("cfg.schema.json", .json (.obj []) 4)]

def c4st : ConfigState :=
  { mkConfig "cfg.json" "cfg.schema.json" with createOnNoEntry := true }

/-- Counterexample to C4 as stated: the config file exists but its bytes
do not parse, so config acquisition fails with a `SyntaxError` carrying no
`code` property — a failure other than "file not found" — yet with
`createOnNoEntry = true` the guard `Reflect.has(err, "code") && err.code
!== "ENOENT"` is false and `read` absorbs the failure, substituting the
in-memory payload and succeeding instead of propagating. -/
theorem read_parse_error_absorbed_cex :
    readJsonFile c4disk "cfg.json" =
      .error { name := "SyntaxError", message := "Unexpected token in JSON", code := none } ∧
    (Config.read c4disk c4st none c4compile).2 =
      .ok { notifications := [], lazyWriteScheduled := true, watcherArmed := false } ∧
    (Config.read c4disk c4st none c4compile).1.payload = .obj [] := by
  exact ⟨rfl, rfl, rfl⟩

/-- C4 (amended): in `read`'s config-acquisition step, every failure is
propagated when `createOnNoEntry` is false; a failure whose error carries
a `code` other than `"ENOENT"` is propagated even when `createOnNoEntry`
is true; and with `createOnNoEntry = true` a failure whose error carries
no `code` (such as a JSON parse failure on an existing file), like a
not-found failure, is absorbed by substituting the `defaultPayload` when
given, else the in-memory payload, and scheduling the first write. -/
theorem read_config_acquisition_amended :
    ∀ (disk : Disk) (st : ConfigState) (dp : Option JsonValue)
      (compile : JsonValue → CompiledSchema) (err : JsErr),
      dpOk dp = true →
      readJsonFile disk st.configFile = .error err →
      ((st.createOnNoEntry = false → Config.read disk st dp compile = (st, .error err)) ∧
       (errCodePresentNotEnoent err = true → Config.read disk st dp compile = (st, .error err)) ∧
       (st.createOnNoEntry = true → errCodePresentNotEnoent err = false →
         Config.read disk st dp compile =
           Config.readRest disk st (dp.getD st.payload) true compile)) := by
  intro disk st dp compile err hdp herr
  refine ⟨fun h1 => ?_, fun h2 => ?_, fun h1 h2 => ?_⟩
  · simp [Config.read, hdp, herr, h1]
  · simp [Config.read, hdp, herr, h2]
  · simp [Config.read, hdp, herr, h1, h2]

def c4wdisk : Disk := [("cfg.schema.json", .json (.obj []) 4)]

/-- Witness for the amended C4 at a missing config file with
`createOnNoEntry = true`: the not-found failure is absorbed and `read`
proceeds on the in-memory payload with the first write scheduled. -/
theorem read_config_acquisition_witness :
    Config.read c4wdisk c4st none c4compile =
      Config.readRest c4wdisk c4st ((none : Option JsonValue).getD c4st.payload) true c4compile := by
  have h := read_config_acquisition_amended c4wdisk c4st none c4compile
    { name := "Error", message := "ENOENT: no such file or directory", code := some "ENOENT" }
    rfl rfl
  exact h.2.2 rfl rfl

/-! ## C5 -/

/-- True exactly on objects whose first member is the `title: "CONFIG"`
marker of `Config.DEFAULTSchema`: lets a model validator detect that it
was compiled from the built-in default schema. -/
def isDefaultSchemaTitle : JsonValue → Bool
  | .obj (("title", .str "CONFIG") :: _) => true
  | _ => false

def c5compile : JsonValue → CompiledSchema :=
  fun j => { validate := fun _ => isDefaultSchemaTitle j, errors := fun _ => [] }

def c5disk : Disk :=
  [("cfg.json", .json (.obj [("foo", .str "ok")]) 4), ("cfg.schema.json", .malformed)]

def c5st : ConfigState := mkConfig "cfg.json" "cfg.schema.json"

/-- Counterexample to C5 as stated: the schema file exists but its bytes
do not parse, so schema acquisition fails with a code-less `SyntaxError` —
not a "file not found" condition — yet `read` does not propagate it: it
falls back to the built-in default schema (the compiled validator here
accepts only when compiled from `Config.DEFAULTSchema`, and the read
commits successfully through it). -/
theorem schema_parse_error_fallback_cex :
    readJsonFile c5disk "cfg.schema.json" =
      .error { name := "SyntaxError", message := "Unexpected token in JSON", code := none } ∧
    (Config.read c5disk c5st none c5compile).2 =
      .ok { notifications := [], lazyWriteScheduled := false, watcherArmed := false } ∧
    (Config.read c5disk c5st none c5compile).1.payload = .obj [("foo", .str "ok")] ∧
    isDefaultSchemaTitle Config.DEFAULTSchema = true := by
  exact ⟨rfl, rfl, rfl, rfl⟩

/-- C5 (amended): in `read`'s schema-acquisition step, a failure whose
error carries a `code` other than `"ENOENT"` is propagated; a not-found
failure — and likewise any failure whose error carries no `code`, such as
a parse failure on an existing schema file — makes `read` fall back to the
constructor-supplied `defaultSchema` when present, else to the built-in
`Config.DEFAULTSchema`, and continue with the commit phase. -/
theorem read_schema_acquisition_amended :
    ∀ (disk : Disk) (st : ConfigState) (dp : Option JsonValue)
      (compile : JsonValue → CompiledSchema) (c : JsonValue) (err : JsErr),
      dpOk dp = true →
      readJsonFile disk st.configFile = .ok c →
      readJsonFile disk st.schemaFile = .error err →
      ((errCodePresentNotEnoent err = true →
          Config.read disk st dp compile = (st, .error err)) ∧
       (errCodePresentNotEnoent err = false →
          Config.read disk st dp compile =
            Config.readCommit st c false (st.defaultSchema.getD Config.DEFAULTSchema) compile)) := by
  intro disk st dp compile c err hdp hc herr
  refine ⟨fun h1 => ?_, fun h1 => ?_⟩ <;>
    simp [Config.read, Config.readRest, hdp, hc, herr, h1]

def c5wdisk : Disk := [("cfg.json", .json (.obj []) 4)]

def c5wst : ConfigState :=
  { mkConfig "cfg.json" "cfg.schema.json" with
      defaultSchema := some (.obj [("custom", .bool true)]) }

/-- Witness for the amended C5 at a missing schema file with a
constructor-supplied `defaultSchema`: the not-found failure selects the
supplied default schema for the commit phase. -/
theorem read_schema_acquisition_witness :
    Config.read c5wdisk c5wst none c5compile =
      Config.readCommit c5wst (.obj []) false
        (c5wst.defaultSchema.getD Config.DEFAULTSchema) c5compile := by
  have h := read_schema_acquisition_amended c5wdisk c5wst none c5compile (.obj [])
    { name := "Error", message := "ENOENT: no such file or directory", code := some "ENOENT" }
    rfl rfl rfl
  exact h.2 rfl

/-! ## C6 -/

def c6sch : CompiledSchema := { validate := fun _ => true, errors := fun _ => [] }

def c6payload : JsonValue := .obj [("foo", .str "a"), ("bar", .str "b")]

def c6st : ConfigState :=
  { mkConfig "cfg.json" "cfg.schema.json" with
      configHasBeenRead := true
      schema := some c6sch
      payload := c6payload
      autoReload := true
      autoReloadActivated := true
      subscriptionObservers := [("foo", 0), ("bar", 1)] }

def c6disk : Disk := [("cfg.json", .json c6payload 4)]

/-- C6 evaluated at the failing input: `close()` on a read, watched handle
with two registered observers (field paths `foo` and `bar`).  The payload
is persisted and the watcher released as claimed, and `configHasBeenRead`
ends false — but the `for…of` loop destructures each registry pair as
`[index, observer]`, so `index` is the field-path string, and
`splice("foo", 1)` (start `NaN`, i.e. `0`) removes the first entry while
iterating: only observer `0` is completed and `[("bar", 1)]` is left in
the registry, contradicting "every observer is completed and the registry
is left empty". -/
theorem close_two_observers_eval :
    Config.close c6disk c6st =
      ((diskSet c6disk "cfg.json" (.json c6payload 4),
        { c6st with autoReloadActivated := false
                    subscriptionObservers := [("bar", 1)]
                    configHasBeenRead := false }),
       .ok { completed := [0], events := ["configWrited"] }) ∧
    (1 : Nat) ∉ ([0] : List Nat) ∧
    ([("bar", 1)] : List (String × Nat)) ≠ [] := by
  refine ⟨by rfl, by decide, by simp⟩

/-! ## C7 -/

def c7payload : JsonValue := .obj [("foo", .str "bar")]

def c7sch : CompiledSchema := { validate := fun _ => true, errors := fun _ => [] }

def c7st : ConfigState :=
  { mkConfig "cfg.json" "cfg.schema.json" with
      configHasBeenRead := true
      schema := some c7sch
      payload := c7payload }

def c7stUnread : ConfigState := mkConfig "cfg.json" "cfg.schema.json"

def c7disk : Disk := []

/-- C7 evaluated at the failing input: `writeOnDisk()` on a read handle
writes exactly the internal payload, pretty-printed with the 4-space
`Config.STRINGIFY_SPACE` indentation, and fails with the state error
(writing nothing) on an unread handle — but the notification it emits is
named `"configWrited"`, not the `"configWritten"` the claim (and the
repository's test suite) states. -/
theorem writeOnDisk_event_eval :
    Config.writeOnDisk c7disk c7st =
      (([("cfg.json", .json c7payload 4)], c7st), .ok ["configWrited"]) ∧
    (["configWrited"] : List String) ≠ ["configWritten"] ∧
    Config.writeOnDisk c7disk c7stUnread =
      ((c7disk, c7stUnread),
       .error { name := "Error"
                message := "Config.writeOnDisk - Cannot write unreaded configuration on the disk"
                code := none }) := by
  refine ⟨by rfl, by simp, by rfl⟩

/-! ## C9 -/

def c9compile : JsonValue → CompiledSchema :=
  fun _ => { validate := fun _ => true, errors := fun _ => [] }

def c9payload : JsonValue := .obj [("l", .arr [.null])]

def c9st : ConfigState :=
  { mkConfig "cfg.json" "cfg.schema.json" with
      configHasBeenRead := true
      schema := some (c9compile (.obj []))
      payload := c9payload }

def c9disk : Disk :=
  [("cfg.json", .json c9payload 4), ("cfg.schema.json", .json (.obj []) 4)]

/-- Counterexample to C9 as stated: under the permissive schema the path
`"l.x"` and value `"hi"` satisfy the claim's premise (the tree obtained by
the set validates), but `"l.x"` addresses a non-index property of the
array at `l`; such a property never survives the commit/serialization
pipeline (`lodash.clonedeep` in the payload setter and `JSON.stringify` in
`writeOnDisk` both drop non-index array properties), so after
`set`, `writeOnDisk`, a fresh handle's `read` and `get("l.x")`, the result
is `undefined` (`none`), not `"hi"`. -/
theorem round_trip_array_property_cex :
    (c9compile (.obj [])).validate
        (lodashSet (clonedeep c9st.payload) "l.x" (.str "hi")) = true ∧
    roundTripRun c9disk c9st "l.x" (.str "hi") c9compile = .ok none ∧
    (Except.ok (none : Option JsonValue) : Except JsErr (Option JsonValue)) ≠
      .ok (some (.str "hi")) := by
  refine ⟨by rfl, by rfl, by simp⟩

/-- C9 (amended): the round-trip law holds on the dotted paths that
address object members and array elements (`pathOk`): for every such path
`p` and value `v` whose resulting tree validates against the schema both
handles compile, `set(p, v)` then `writeOnDisk()` on one handle, then a
fresh handle on the same config file, `read()`, then `get(p)` returns a
value deep-equal to `v`.  (Paths reaching a non-index property of an
array are excluded: the counterexample shows the value is dropped by the
commit/serialization pipeline there.) -/
theorem round_trip_amended
    (disk : Disk) (st : ConfigState) (p : String) (v : JsonValue)
    (compile : JsonValue → CompiledSchema) (schemaJson : JsonValue) (ind : Nat)
    (hread : st.configHasBeenRead = true)
    (hpay : isPlainObject st.payload = true)
    (hsch : st.schema = some (compile schemaJson))
    (hdisk : diskGet disk st.schemaFile = some (.json schemaJson ind))
    (hne : st.schemaFile ≠ st.configFile)
    (hvalid : (compile schemaJson).validate (setPath st.payload (splitPath p) v) = true)
    (hpath : pathOk st.payload (splitPath p) = true) :
    roundTripRun disk st p v compile = .ok (some v) := by
  have hobj : isPlainObject (setPath st.payload (splitPath p) v) = true :=
    isPlainObject_setPath st.payload v (splitPath p) hpay
  have hget : getPath (setPath st.payload (splitPath p) v) (splitPath p) = some v :=
    getPath_setPath (splitPath p) st.payload v hpath
  have hset : Config.set st p v =
      ({ st with payload := setPath st.payload (splitPath p) v },
       .ok { notifications := st.subscriptionObservers.map
               (fun e => (e.2, lodashGet (setPath st.payload (splitPath p) v) e.1))
             lazyWriteScheduled := st.writeOnSet }) := by
    simp [Config.set, Config.setPayload, hread, hobj, hsch, hvalid, clonedeep, lodashSet,
      lodashGet]
  have hwod : Config.writeOnDisk disk { st with payload := setPath st.payload (splitPath p) v } =
      ((diskSet disk st.configFile (.json (setPath st.payload (splitPath p) v)
          Config.STRINGIFY_SPACE),
        { st with payload := setPath st.payload (splitPath p) v }),
       .ok ["configWrited"]) := by
    simp [Config.writeOnDisk, hread]
  have hcfgread : readJsonFile
      (diskSet disk st.configFile (.json (setPath st.payload (splitPath p) v)
        Config.STRINGIFY_SPACE))
      st.configFile = .ok (setPath st.payload (splitPath p) v) := by
    simp [readJsonFile, diskGet_diskSet_self]
  have hschread : readJsonFile
      (diskSet disk st.configFile (.json (setPath st.payload (splitPath p) v)
        Config.STRINGIFY_SPACE))
      st.schemaFile = .ok schemaJson := by
    simp [readJsonFile, diskGet_diskSet_ne disk st.configFile st.schemaFile _ hne, hdisk]
  have hread2 : Config.read
      (diskSet disk st.configFile (.json (setPath st.payload (splitPath p) v)
        Config.STRINGIFY_SPACE))
      (mkConfig st.configFile st.schemaFile) none compile =
      ({ mkConfig st.configFile st.schemaFile with
           schema := some (compile schemaJson)
           configHasBeenRead := true
           payload := setPath st.payload (splitPath p) v },
       .ok { notifications := [], lazyWriteScheduled := false, watcherArmed := false }) := by
    simp [Config.read, Config.readRest, Config.readCommit, Config.setPayload,
      Config.setupAutoReload, dpOk, hcfgread, hschread, hobj, hvalid, clonedeep, mkConfig]
  have hgetrun : Config.get
      ({ mkConfig st.configFile st.schemaFile with
           schema := some (compile schemaJson)
           configHasBeenRead := true
           payload := setPath st.payload (splitPath p) v }) p =
      ({ mkConfig st.configFile st.schemaFile with
           schema := some (compile schemaJson)
           configHasBeenRead := true
           payload := setPath st.payload (splitPath p) v }, .ok (some v)) := by
    simp [Config.get, mkConfig, lodashGet, clonedeep, hget]
  unfold roundTripRun
  rw [hset]
  dsimp only
  rw [hwod]
  dsimp only
  rw [hread2]
  dsimp only
  rw [hgetrun]

def c9wcompile : JsonValue → CompiledSchema :=
  fun _ => { validate := fun _ => true, errors := fun _ => [] }

def c9wpayload : JsonValue := .obj [("foo", .str "a")]

def c9wst : ConfigState :=
  { mkConfig "cfg.json" "cfg.schema.json" with
      configHasBeenRead := true
      schema := some (c9wcompile (.obj []))
      payload := c9wpayload }

def c9wdisk : Disk :=
  [("cfg.json", .json c9wpayload 4), ("cfg.schema.json", .json (.obj []) 4)]

/-- Witness for the amended C9: setting `foo` to `"b"`, persisting,
re-reading on a fresh handle and getting `foo` returns `"b"`. -/
theorem round_trip_witness :
    roundTripRun c9wdisk c9wst "foo" (.str "b") c9wcompile = .ok (some (.str "b")) := by
  exact round_trip_amended c9wdisk c9wst "foo" (.str "b") c9wcompile (.obj []) 4
    rfl rfl rfl rfl (by decide) rfl rfl
